import Mathlib

/-
Verification of the Marathwada drought dashboard's aggregation pipeline.

The two source files (drought_dashboard.py and enhanced_drought_dashboard.py)
share one computational core: extracting the six category values of a yearly
record, grouping them into three buckets, computing percentages of the total,
filtering the non-zero categories for pie charts, looking up a year's record,
and building the year-over-year comparison rows.  Values are modelled as
rationals (the CSV carries decimal areas); records are modelled as rows with a
year, an association list of column values, and a map-image URL, so that a
missing column is representable (pandas raises a KeyError on access, modelled
as an Except error).
-/

namespace Drought

/-- Canonical category key order, as the literal list `categories` appearing in
drought_dashboard.py (create_column_content, line 286 and elsewhere). -/
def categories : List String :=
  ["Extreme_Drought", "Severe_Drought", "Moderate_Drought",
   "Near_Normal", "Moderately_Wet", "Extremely_Wet"]

/-- Same literal list as it appears in enhanced_drought_dashboard.py
(create_column_content, line 231 and create_comparison_table, line 297). -/
def categoriesE : List String :=
  ["Extreme_Drought", "Severe_Drought", "Moderate_Drought",
   "Near_Normal", "Moderately_Wet", "Extremely_Wet"]

/-- One row of the loaded dataframe: the year, the named columns (category
areas), and the `Map Images Left` URL.  Columns are an association list so a
missing category key is representable. -/
structure Row where
  year : Int
  cols : List (String × ℚ)
  mapImagesLeft : String
deriving Repr, DecidableEq

/-- Failure modes of the aggregation core: `df[df[year] == y].iloc[0]` raising
on an absent year, and `year_data[cat]` raising a KeyError on an absent
category column. -/
inductive DashError where
  | yearNotFound : DashError
  | missingCategory : String → DashError
deriving Repr, DecidableEq

/-- Column access on a row: `year_data[cat]` — the value under the first
matching key, `none` modelling the KeyError case of an absent column. -/
def getCol : List (String × ℚ) → String → Option ℚ
  | [], _ => none
  | p :: ps, k => if p.1 == k then some p.2 else getCol ps k

/-- Column access as a fallible computation: an absent key fails with
`missingCategory` (pandas KeyError) instead of substituting a default. -/
def getColE (cols : List (String × ℚ)) (k : String) : Except DashError ℚ :=
  match getCol cols k with
  | some v => .ok v
  | none => .error (.missingCategory k)

/-- The list comprehension `values = [year_data[cat] for cat in categories]`
(drought_dashboard.py line 287, enhanced line 232): evaluated left to right,
failing at the first absent key. -/
def getVals (cols : List (String × ℚ)) : List String → Except DashError (List ℚ)
  | [] => .ok []
  | k :: ks =>
    match getColE cols k with
    | .error e => .error e
    | .ok v =>
      match getVals cols ks with
      | .error e => .error e
      | .ok vs => .ok (v :: vs)

/-- The six category values of a record in canonical order. -/
def categoryValues (r : Row) : Except DashError (List ℚ) :=
  getVals r.cols categories

/-- Observer: did `categoryValues` fail with a missing-category error? -/
def isMissingCatError : Except DashError (List ℚ) → Bool
  | .error (.missingCategory _) => true
  | _ => false

/-- The three grouped bucket totals computed in create_bar_chart
(drought_dashboard.py lines 164-170): Drought = Extreme + Severe + Moderate,
Near Normal alone, Wet = Moderately + Extremely.  Column accesses happen in
source order, so the first absent key wins. -/
def groupedTotals (cols : List (String × ℚ)) : Except DashError (ℚ × ℚ × ℚ) :=
  match getColE cols "Extreme_Drought" with
  | .error e => .error e
  | .ok ed =>
    match getColE cols "Severe_Drought" with
    | .error e => .error e
    | .ok sd =>
      match getColE cols "Moderate_Drought" with
      | .error e => .error e
      | .ok md =>
        match getColE cols "Near_Normal" with
        | .error e => .error e
        | .ok nn =>
          match getColE cols "Moderately_Wet" with
          | .error e => .error e
          | .ok mw =>
            match getColE cols "Extremely_Wet" with
            | .error e => .error e
            | .ok ew => .ok (ed + sd + md, nn, mw + ew)

/-- Per-category percentages of the year's total, as computed in
enhanced_drought_dashboard.py line 260:
`percentage = (value/total*100) if total > 0 else 0` with
`total = sum(values)` (line 233). -/
def percentageOf (vs : List ℚ) : List ℚ :=
  vs.map (fun v => if 0 < vs.sum then v / vs.sum * 100 else 0)

/-- The pie-chart data filter
`non_zero_data = [(cat, val) for cat, val in zip(categories, values) if val > 0]`
(drought_dashboard.py line 290, enhanced line 235). -/
def nonZeroData (vs : List ℚ) : List (String × ℚ) :=
  (categories.zip vs).filter (fun p => 0 < p.2)

/-- The pie series actually rendered: the non-zero categories when any exist,
otherwise the single placeholder slice `px.pie(values=[1], names=[No Data])`
(drought_dashboard.py line 309, enhanced line 254). -/
def pieData (vs : List ℚ) : List (String × ℚ) :=
  match nonZeroData vs with
  | [] => [("No Data", 1)]
  | p :: ps => p :: ps

/-- Year lookup `df[df[year] == year].iloc[0]`: the first row matching the
year, failing (pandas IndexError on the empty selection, named
YearNotFoundError by the spec) when no row matches. -/
def lookupYear (rows : List Row) (y : Int) : Except DashError Row :=
  match rows.filter (fun r => r.year == y) with
  | [] => .error .yearNotFound
  | r :: _ => .ok r

/-- One row of the comparison table: category, left value, right value, signed
difference and the difference's display color. -/
structure CompRow where
  cat : String
  leftVal : ℚ
  rightVal : ℚ
  diff : ℚ
  color : String
deriving Repr, DecidableEq

/-- The comparison loop body of create_comparison_table in
drought_dashboard.py (lines 359-369): per category, left value, right value,
`diff = right_val - left_val`, and
`diff_color = red if diff > 0 else green if diff < 0 else gray`. -/
def compRowsDD (lcols rcols : List (String × ℚ)) :
    List String → Except DashError (List CompRow)
  | [] => .ok []
  | k :: ks =>
    match getColE lcols k with
    | .error e => .error e
    | .ok lv =>
      match getColE rcols k with
      | .error e => .error e
      | .ok rv =>
        match compRowsDD lcols rcols ks with
        | .error e => .error e
        | .ok rest =>
          .ok (⟨k, lv, rv, rv - lv,
            if 0 < rv - lv then "#e74c3c"
            else if rv - lv < 0 then "#27ae60"
            else "#95a5a6"⟩ :: rest)

/-- The comparison loop body of create_comparison_table in
enhanced_drought_dashboard.py (lines 303-313), transcribed from that file:
the same per-category left value, right value, difference and color chain. -/
def compRowsEDD (lcols rcols : List (String × ℚ)) :
    List String → Except DashError (List CompRow)
  | [] => .ok []
  | k :: ks =>
    match getColE lcols k with
    | .error e => .error e
    | .ok lv =>
      match getColE rcols k with
      | .error e => .error e
      | .ok rv =>
        match compRowsEDD lcols rcols ks with
        | .error e => .error e
        | .ok rest =>
          .ok (⟨k, lv, rv, rv - lv,
            if 0 < rv - lv then "#e74c3c"
            else if rv - lv < 0 then "#27ae60"
            else "#95a5a6"⟩ :: rest)

/-- create_comparison_table of drought_dashboard.py (lines 351-370): look up
both years then build the comparison rows over the canonical categories. -/
def create_comparison_table_dd (leftYear rightYear : Int) (rows : List Row) :
    Except DashError (List CompRow) :=
  match lookupYear rows leftYear with
  | .error e => .error e
  | .ok ld =>
    match lookupYear rows rightYear with
    | .error e => .error e
    | .ok rd => compRowsDD ld.cols rd.cols categories

/-- create_comparison_table of enhanced_drought_dashboard.py (lines 295-314). -/
def create_comparison_table_edd (leftYear rightYear : Int) (rows : List Row) :
    Except DashError (List CompRow) :=
  match lookupYear rows leftYear with
  | .error e => .error e
  | .ok ld =>
    match lookupYear rows rightYear with
    | .error e => .error e
    | .ok rd => compRowsEDD ld.cols rd.cols categoriesE

/-- Abstract PIL image: mode, dimensions and an opaque pixel payload. -/
structure Img where
  mode : String
  width : Nat
  height : Nat
  data : List Nat
deriving Repr, DecidableEq

/-- The external image-library operations get_map_image calls, taken as
parameters of the model: decoding (Image.open, which may fail), mode
conversion, resizing, the three enhancers, the unsharp-mask filter, PNG
encoding to a base64 string (with the optimize flag), and flat-color image
creation (Image.new). -/
structure ImgOps where
  decode : List Nat → Option Img
  convert : Img → String → Img
  resize : Img → Nat × Nat → Img
  sharpness : Img → ℚ → Img
  contrast : Img → ℚ → Img
  colorBalance : Img → ℚ → Img
  unsharpMask : Img → Nat → Nat → Nat → Img
  encodePng : Img → Bool → String
  newImg : String → Nat × Nat → String → Img

/-- Outcome of `requests.get(url, timeout=10)`: either the call raises
(network error or timeout) or yields a response with a status code and body
bytes. -/
inductive FetchOutcome where
  | failure : FetchOutcome
  | response : Nat → List Nat → FetchOutcome

/-- get_map_image (drought_dashboard.py lines 38-65, identical in
enhanced_drought_dashboard.py lines 49-76): on a 200 response whose body
decodes, convert to RGB when needed, resize to 600x600, enhance sharpness 1.2,
contrast 1.1, color 1.1, unsharp-mask (1, 120, 3) and return the encoded
image; on any failure — raised fetch, non-200 status, failed decode — fall
through to the fixed placeholder `Image.new(RGB, (600, 600), lightgray)`. -/
def get_map_image (ops : ImgOps) (fetch : FetchOutcome) : String :=
  let fallback :=
    "data:image/png;base64," ++
      ops.encodePng (ops.newImg "RGB" (600, 600) "lightgray") false
  match fetch with
  | .failure => fallback
  | .response status body =>
    if status == 200 then
      match ops.decode body with
      | none => fallback
      | some img0 =>
        let img1 := if img0.mode != "RGB" then ops.convert img0 "RGB" else img0
        let img2 := ops.resize img1 (600, 600)
        let img3 := ops.sharpness img2 (12 / 10)
        let img4 := ops.contrast img3 (11 / 10)
        let img5 := ops.colorBalance img4 (11 / 10)
        let img6 := ops.unsharpMask img5 1 120 3
        "data:image/png;base64," ++ ops.encodePng img6 true
    else fallback

/-- A concrete 1984 record, with the values of the spec's worked scenario. -/
def sampleRow : Row :=
  ⟨1984, [("Extreme_Drought", 10), ("Severe_Drought", 5), ("Moderate_Drought", 5),
          ("Near_Normal", 20), ("Moderately_Wet", 8), ("Extremely_Wet", 2)], "u1"⟩

/-- A concrete 1981 record for comparison scenarios. -/
def sampleRow2 : Row :=
  ⟨1981, [("Extreme_Drought", 12), ("Severe_Drought", 4), ("Moderate_Drought", 6),
          ("Near_Normal", 15), ("Moderately_Wet", 9), ("Extremely_Wet", 4)], "u2"⟩

/-- The comparison rows for 1984 (left) against 1981 (right). -/
def sampleRows1 : List CompRow :=
  [⟨"Extreme_Drought", 10, 12, 2, "#e74c3c"⟩,
   ⟨"Severe_Drought", 5, 4, -1, "#27ae60"⟩,
   ⟨"Moderate_Drought", 5, 6, 1, "#e74c3c"⟩,
   ⟨"Near_Normal", 20, 15, -5, "#27ae60"⟩,
   ⟨"Moderately_Wet", 8, 9, 1, "#e74c3c"⟩,
   ⟨"Extremely_Wet", 2, 4, 2, "#e74c3c"⟩]

/-- The comparison rows with the two years swapped. -/
def sampleRows2 : List CompRow :=
  [⟨"Extreme_Drought", 12, 10, -2, "#27ae60"⟩,
   ⟨"Severe_Drought", 4, 5, 1, "#e74c3c"⟩,
   ⟨"Moderate_Drought", 6, 5, -1, "#27ae60"⟩,
   ⟨"Near_Normal", 15, 20, 5, "#e74c3c"⟩,
   ⟨"Moderately_Wet", 9, 8, -1, "#27ae60"⟩,
   ⟨"Extremely_Wet", 4, 2, -2, "#27ae60"⟩]

/-- The first comparison row of `sampleRows1`. -/
def sampleCompRow : CompRow := ⟨"Extreme_Drought", 10, 12, 2, "#e74c3c"⟩

/-- A record whose source row lacks the Near_Normal column. -/
def incompleteRow : Row :=
  ⟨1990, [("Extreme_Drought", 1), ("Severe_Drought", 2), ("Moderate_Drought", 3),
          ("Moderately_Wet", 4), ("Extremely_Wet", 5)], "u3"⟩

/-- A trivial instantiation of the external image operations, for concrete
evaluation. -/
def sampleOps : ImgOps where
  decode := fun _ => none
  convert := fun i _ => i
  resize := fun i _ => i
  sharpness := fun i _ => i
  contrast := fun i _ => i
  colorBalance := fun i _ => i
  unsharpMask := fun i _ _ _ => i
  encodePng := fun _ _ => "PNGDATA"
  newImg := fun m s _ => ⟨m, s.1, s.2, []⟩

/-- Summing a list mapped through division-then-scaling factors out. -/
theorem sum_map_div_mul (vs : List ℚ) (t c : ℚ) :
    (vs.map (fun v => v / t * c)).sum = vs.sum / t * c := by
  induction vs with
  | nil => simp
  | cons a l ih =>
    simp only [List.map_cons, List.sum_cons, ih]
    ring

/-- The difference-color conditional chain of both comparison tables picks the
red, green and gray colors exactly on positive, negative and zero deltas. -/
theorem diffColor_cases (d : ℚ) :
    ((if 0 < d then "#e74c3c" else if d < 0 then "#27ae60" else "#95a5a6") =
        "#e74c3c" ↔ 0 < d) ∧
    ((if 0 < d then "#e74c3c" else if d < 0 then "#27ae60" else "#95a5a6") =
        "#27ae60" ↔ d < 0) ∧
    ((if 0 < d then "#e74c3c" else if d < 0 then "#27ae60" else "#95a5a6") =
        "#95a5a6" ↔ d = 0) := by
  rcases lt_trichotomy (0 : ℚ) d with h | h | h
  · rw [if_pos h]
    refine ⟨by simp [h], ?_, ?_⟩
    · simp [lt_asymm h]
    · simp [h.ne.symm]
  · rw [if_neg (by rw [h.symm]; exact lt_irrefl 0), if_neg (by rw [h.symm]; exact lt_irrefl 0)]
    refine ⟨?_, ?_, by simp [h.symm]⟩
    · simp [h.symm]
    · simp [h.symm, lt_irrefl]
  · rw [if_neg (lt_asymm h), if_pos h]
    refine ⟨?_, by simp [h], ?_⟩
    · simp [lt_asymm h]
    · simp [h.ne]

/-- Every successfully built comparison row carries the right-minus-left
difference and its color chain. -/
theorem compRowsDD_row_spec (lcols rcols : List (String × ℚ)) :
    ∀ (ks : List String) (rws : List CompRow),
      compRowsDD lcols rcols ks = .ok rws →
      ∀ row ∈ rws, row.diff = row.rightVal - row.leftVal ∧
        row.color = (if 0 < row.diff then "#e74c3c"
          else if row.diff < 0 then "#27ae60" else "#95a5a6") := by
  intro ks
  induction ks with
  | nil =>
    intro rws h row hrow
    simp only [compRowsDD] at h
    cases h
    simp at hrow
  | cons k ks ih =>
    intro rws h row hrow
    simp only [compRowsDD] at h
    cases hl : getColE lcols k with
    | error e => rw [hl] at h; cases h
    | ok lv =>
      rw [hl] at h
      cases hr : getColE rcols k with
      | error e => rw [hr] at h; cases h
      | ok rv =>
        rw [hr] at h
        cases hrec : compRowsDD lcols rcols ks with
        | error e => rw [hrec] at h; cases h
        | ok rest =>
          rw [hrec] at h
          cases h
          rcases List.mem_cons.mp hrow with rfl | hmem
          · exact ⟨rfl, rfl⟩
          · exact ih rest hrec row hmem

/-- Swapping the two column sets negates every comparison difference. -/
theorem compRowsDD_swap_neg (acols bcols : List (String × ℚ)) :
    ∀ (ks : List String) (r1 r2 : List CompRow),
      compRowsDD acols bcols ks = .ok r1 →
      compRowsDD bcols acols ks = .ok r2 →
      List.Forall₂ (fun p q => p.diff = -q.diff) r1 r2 := by
  intro ks
  induction ks with
  | nil =>
    intro r1 r2 h1 h2
    simp only [compRowsDD] at h1 h2
    cases h1
    cases h2
    exact .nil
  | cons k ks ih =>
    intro r1 r2 h1 h2
    simp only [compRowsDD] at h1 h2
    cases ha : getColE acols k with
    | error e => rw [ha] at h1; cases h1
    | ok av =>
      rw [ha] at h1 h2
      cases hb : getColE bcols k with
      | error e => rw [hb] at h1; cases h1
      | ok bv =>
        rw [hb] at h1 h2
        cases hr1 : compRowsDD acols bcols ks with
        | error e => rw [hr1] at h1; cases h1
        | ok rest1 =>
          rw [hr1] at h1
          cases hr2 : compRowsDD bcols acols ks with
          | error e => rw [hr2] at h2; cases h2
          | ok rest2 =>
            rw [hr2] at h2
            cases h1
            cases h2
            exact .cons (by ring) (ih rest1 rest2 hr1 hr2)

/-- The two files' comparison loops are the same function. -/
theorem compRows_variants_eq (lcols rcols : List (String × ℚ)) :
    ∀ ks : List String, compRowsDD lcols rcols ks = compRowsEDD lcols rcols ks := by
  intro ks
  induction ks with
  | nil => rfl
  | cons k ks ih => simp only [compRowsDD, compRowsEDD, ih]

/-- Extracting the category values fails with a missing-category error as soon
as one requested key is absent from the columns. -/
theorem getVals_missing (cols : List (String × ℚ)) :
    ∀ (ks : List String) (k : String), k ∈ ks → getCol cols k = none →
      ∃ k2, getVals cols ks = .error (.missingCategory k2) := by
  intro ks
  induction ks with
  | nil =>
    intro k hk
    exact absurd hk (by simp)
  | cons k0 ks ih =>
    intro k hk hmiss
    cases h0 : getCol cols k0 with
    | none =>
      exact ⟨k0, by simp [getVals, getColE, h0]⟩
    | some v0 =>
      have hk' : k ∈ ks := by
        rcases List.mem_cons.mp hk with rfl | hmem
        · rw [hmiss] at h0; cases h0
        · exact hmem
      obtain ⟨k2, hk2⟩ := ih k hk' hmiss
      exact ⟨k2, by simp [getVals, getColE, h0, hk2]⟩

/-- Filtering a list of rows by a year no row has yields the empty list. -/
theorem filter_year_nil (rows : List Row) (y : Int) (h : ∀ r ∈ rows, r.year ≠ y) :
    rows.filter (fun r => r.year == y) = [] := by
  induction rows with
  | nil => rfl
  | cons r rs ih =>
    have hr : (r.year == y) = false := by
      simpa using h r (by simp)
    simp only [List.filter, hr]
    exact ih (fun x hx => h x (by simp [hx]))

/-- C1: for every yearly record, the sum of the six per-category values equals
the sum of the three grouped-bucket totals computed from it (Drought =
ExtremeDrought + SevereDrought + ModerateDrought, NearNormalGroup =
NearNormal, Wet = ModeratelyWet + ExtremelyWet); the grouping is a partition
and loses nothing. -/
theorem grouped_totals_partition (r : Row) (vs : List ℚ) (d n w : ℚ)
    (h1 : categoryValues r = .ok vs)
    (h2 : groupedTotals r.cols = .ok (d, n, w)) :
    vs.sum = d + n + w := by
  simp only [categoryValues, categories, getVals] at h1
  simp only [groupedTotals] at h2
  cases he1 : getColE r.cols "Extreme_Drought" with
  | error e => rw [he1] at h2; cases h2
  | ok ed =>
    rw [he1] at h1 h2
    cases he2 : getColE r.cols "Severe_Drought" with
    | error e => rw [he2] at h2; cases h2
    | ok sd =>
      rw [he2] at h1 h2
      cases he3 : getColE r.cols "Moderate_Drought" with
      | error e => rw [he3] at h2; cases h2
      | ok md =>
        rw [he3] at h1 h2
        cases he4 : getColE r.cols "Near_Normal" with
        | error e => rw [he4] at h2; cases h2
        | ok nn =>
          rw [he4] at h1 h2
          cases he5 : getColE r.cols "Moderately_Wet" with
          | error e => rw [he5] at h2; cases h2
          | ok mw =>
            rw [he5] at h1 h2
            cases he6 : getColE r.cols "Extremely_Wet" with
            | error e => rw [he6] at h2; cases h2
            | ok ew =>
              rw [he6] at h1 h2
              cases h1
              simp only [Except.ok.injEq, Prod.mk.injEq] at h2
              obtain ⟨hd, hn, hw⟩ := h2
              subst hd hn hw
              simp only [List.sum_cons, List.sum_nil, add_zero]
              ring

/-- Witness for C1 at the spec's 1984 scenario: 10+5+5+20+8+2 = 20+20+10. -/
theorem grouped_totals_partition_witness :
    ([10, 5, 5, 20, 8, 2] : List ℚ).sum = 20 + 20 + 10 :=
  grouped_totals_partition sampleRow [10, 5, 5, 20, 8, 2] 20 20 10
    (by
      have e1 : getColE sampleRow.cols "Extreme_Drought" = .ok 10 := rfl
      have e2 : getColE sampleRow.cols "Severe_Drought" = .ok 5 := rfl
      have e3 : getColE sampleRow.cols "Moderate_Drought" = .ok 5 := rfl
      have e4 : getColE sampleRow.cols "Near_Normal" = .ok 20 := rfl
      have e5 : getColE sampleRow.cols "Moderately_Wet" = .ok 8 := rfl
      have e6 : getColE sampleRow.cols "Extremely_Wet" = .ok 2 := rfl
      simp only [categoryValues, categories, getVals, e1, e2, e3, e4, e5, e6])
    (by
      have e1 : getColE sampleRow.cols "Extreme_Drought" = .ok 10 := rfl
      have e2 : getColE sampleRow.cols "Severe_Drought" = .ok 5 := rfl
      have e3 : getColE sampleRow.cols "Moderate_Drought" = .ok 5 := rfl
      have e4 : getColE sampleRow.cols "Near_Normal" = .ok 20 := rfl
      have e5 : getColE sampleRow.cols "Moderately_Wet" = .ok 8 := rfl
      have e6 : getColE sampleRow.cols "Extremely_Wet" = .ok 2 := rfl
      simp only [groupedTotals, e1, e2, e3, e4, e5, e6]
      norm_num)

/-- C2: for every record whose six category values sum to zero, percentageOf
returns 0 for every category (the division by the zero total is explicitly
guarded and produces no division error). -/
theorem percentageOf_zero_total (vs : List ℚ) (h : vs.sum = 0) :
    percentageOf vs = vs.map (fun _ => 0) := by
  simp [percentageOf, h]

/-- Witness for C2 at the all-zero record. -/
theorem percentageOf_zero_total_witness :
    percentageOf [0, 0, 0, 0, 0, 0] = [0, 0, 0, 0, 0, 0] := by
  rw [percentageOf_zero_total [0, 0, 0, 0, 0, 0] (by simp)]
  simp

/-- C3: for every pair of records and every category, the comparison computes
delta = right value minus left value and classifies it (by the color used for
display) as increase exactly when delta is positive, decrease exactly when
delta is negative, and unchanged exactly when delta equals zero, with exact
equality and no epsilon tolerance. -/
theorem comparison_classification (l r : Row) (rws : List CompRow)
    (h : compRowsDD l.cols r.cols categories = .ok rws)
    (row : CompRow) (hrow : row ∈ rws) :
    row.diff = row.rightVal - row.leftVal ∧
    ((row.color = "#e74c3c") ↔ 0 < row.diff) ∧
    ((row.color = "#27ae60") ↔ row.diff < 0) ∧
    ((row.color = "#95a5a6") ↔ row.diff = 0) := by
  obtain ⟨hdiff, hcolor⟩ :=
    compRowsDD_row_spec l.cols r.cols categories rws h row hrow
  obtain ⟨c1, c2, c3⟩ := diffColor_cases row.diff
  refine ⟨hdiff, ?_, ?_, ?_⟩
  · rw [hcolor]; exact c1
  · rw [hcolor]; exact c2
  · rw [hcolor]; exact c3

/-- Witness for C3 on the Extreme_Drought row of the 1984-vs-1981 table. -/
theorem comparison_classification_witness :
    sampleCompRow.diff = sampleCompRow.rightVal - sampleCompRow.leftVal ∧
    ((sampleCompRow.color = "#e74c3c") ↔ 0 < sampleCompRow.diff) ∧
    ((sampleCompRow.color = "#27ae60") ↔ sampleCompRow.diff < 0) ∧
    ((sampleCompRow.color = "#95a5a6") ↔ sampleCompRow.diff = 0) :=
  comparison_classification sampleRow sampleRow2 sampleRows1
    (by
      have e1 : getColE sampleRow.cols "Extreme_Drought" = .ok 10 := rfl
      have e2 : getColE sampleRow.cols "Severe_Drought" = .ok 5 := rfl
      have e3 : getColE sampleRow.cols "Moderate_Drought" = .ok 5 := rfl
      have e4 : getColE sampleRow.cols "Near_Normal" = .ok 20 := rfl
      have e5 : getColE sampleRow.cols "Moderately_Wet" = .ok 8 := rfl
      have e6 : getColE sampleRow.cols "Extremely_Wet" = .ok 2 := rfl
      have f1 : getColE sampleRow2.cols "Extreme_Drought" = .ok 12 := rfl
      have f2 : getColE sampleRow2.cols "Severe_Drought" = .ok 4 := rfl
      have f3 : getColE sampleRow2.cols "Moderate_Drought" = .ok 6 := rfl
      have f4 : getColE sampleRow2.cols "Near_Normal" = .ok 15 := rfl
      have f5 : getColE sampleRow2.cols "Moderately_Wet" = .ok 9 := rfl
      have f6 : getColE sampleRow2.cols "Extremely_Wet" = .ok 4 := rfl
      simp only [compRowsDD, categories, e1, e2, e3, e4, e5, e6,
        f1, f2, f3, f4, f5, f6, sampleRows1]
      norm_num)
    sampleCompRow (by simp [sampleCompRow, sampleRows1])

/-- C4: for every pair of records a and b and every category, the delta
produced by comparing a to b is the exact negation of the delta produced by
comparing b to a. -/
theorem comparison_delta_antisymm (a b : Row) (r1 r2 : List CompRow)
    (h1 : compRowsDD a.cols b.cols categories = .ok r1)
    (h2 : compRowsDD b.cols a.cols categories = .ok r2) :
    List.Forall₂ (fun p q => p.diff = -q.diff) r1 r2 :=
  compRowsDD_swap_neg a.cols b.cols categories r1 r2 h1 h2

/-- Witness for C4: 1984 against 1981 and 1981 against 1984. -/
theorem comparison_delta_antisymm_witness :
    List.Forall₂ (fun p q : CompRow => p.diff = -q.diff) sampleRows1 sampleRows2 :=
  comparison_delta_antisymm sampleRow sampleRow2 sampleRows1 sampleRows2
    (by
      have e1 : getColE sampleRow.cols "Extreme_Drought" = .ok 10 := rfl
      have e2 : getColE sampleRow.cols "Severe_Drought" = .ok 5 := rfl
      have e3 : getColE sampleRow.cols "Moderate_Drought" = .ok 5 := rfl
      have e4 : getColE sampleRow.cols "Near_Normal" = .ok 20 := rfl
      have e5 : getColE sampleRow.cols "Moderately_Wet" = .ok 8 := rfl
      have e6 : getColE sampleRow.cols "Extremely_Wet" = .ok 2 := rfl
      have f1 : getColE sampleRow2.cols "Extreme_Drought" = .ok 12 := rfl
      have f2 : getColE sampleRow2.cols "Severe_Drought" = .ok 4 := rfl
      have f3 : getColE sampleRow2.cols "Moderate_Drought" = .ok 6 := rfl
      have f4 : getColE sampleRow2.cols "Near_Normal" = .ok 15 := rfl
      have f5 : getColE sampleRow2.cols "Moderately_Wet" = .ok 9 := rfl
      have f6 : getColE sampleRow2.cols "Extremely_Wet" = .ok 4 := rfl
      simp only [compRowsDD, categories, e1, e2, e3, e4, e5, e6,
        f1, f2, f3, f4, f5, f6, sampleRows1]
      norm_num)
    (by
      have e1 : getColE sampleRow.cols "Extreme_Drought" = .ok 10 := rfl
      have e2 : getColE sampleRow.cols "Severe_Drought" = .ok 5 := rfl
      have e3 : getColE sampleRow.cols "Moderate_Drought" = .ok 5 := rfl
      have e4 : getColE sampleRow.cols "Near_Normal" = .ok 20 := rfl
      have e5 : getColE sampleRow.cols "Moderately_Wet" = .ok 8 := rfl
      have e6 : getColE sampleRow.cols "Extremely_Wet" = .ok 2 := rfl
      have f1 : getColE sampleRow2.cols "Extreme_Drought" = .ok 12 := rfl
      have f2 : getColE sampleRow2.cols "Severe_Drought" = .ok 4 := rfl
      have f3 : getColE sampleRow2.cols "Moderate_Drought" = .ok 6 := rfl
      have f4 : getColE sampleRow2.cols "Near_Normal" = .ok 15 := rfl
      have f5 : getColE sampleRow2.cols "Moderately_Wet" = .ok 9 := rfl
      have f6 : getColE sampleRow2.cols "Extremely_Wet" = .ok 4 := rfl
      simp only [compRowsDD, categories, e1, e2, e3, e4, e5, e6,
        f1, f2, f3, f4, f5, f6, sampleRows2]
      norm_num)

/-- C5: for every record, the non-zero category sequence is the subsequence of
the canonical category/value pairs containing exactly the entries with value
strictly greater than 0; when all values are zero it is the empty sequence,
and in that case the rendered pie series is the single No-Data slice of
value 1. -/
theorem nonZeroData_spec (vs : List ℚ) :
    (nonZeroData vs).Sublist (categories.zip vs) ∧
    (∀ p : String × ℚ, p ∈ nonZeroData vs ↔ p ∈ categories.zip vs ∧ 0 < p.2) ∧
    ((∀ v ∈ vs, v = 0) → nonZeroData vs = [] ∧ pieData vs = [("No Data", 1)]) := by
  refine ⟨List.filter_sublist _, ?_, ?_⟩
  · intro p
    simp [nonZeroData]
  · intro hz
    have hnil : nonZeroData vs = [] := by
      simp only [nonZeroData, List.filter_eq_nil_iff]
      intro p hp
      obtain ⟨a, b⟩ := p
      have hb := (List.of_mem_zip hp).2
      simp [hz b hb]
    refine ⟨hnil, ?_⟩
    simp [pieData, hnil]

/-- Witness for C5 at the all-zero record. -/
theorem nonZeroData_spec_witness :
    nonZeroData [0, 0, 0, 0, 0, 0] = [] ∧
      pieData [0, 0, 0, 0, 0, 0] = [("No Data", 1)] :=
  (nonZeroData_spec [0, 0, 0, 0, 0, 0]).2.2 (by simp)

/-- C6: for every dataset and every year not present in it, looking up that
year's record fails with the year-not-found error. -/
theorem lookupYear_absent (rows : List Row) (y : Int) (h : ∀ r ∈ rows, r.year ≠ y) :
    lookupYear rows y = .error .yearNotFound := by
  unfold lookupYear
  rw [filter_year_nil rows y h]

/-- Witness for C6: 1899 is absent from the one-record dataset. -/
theorem lookupYear_absent_witness :
    lookupYear [sampleRow] 1899 = .error .yearNotFound :=
  lookupYear_absent [sampleRow] 1899 (by decide)

/-- C7: for every record in which one of the six category keys is absent,
extracting the category values fails with a missing-category error rather
than silently substituting zero. -/
theorem categoryValues_missing_key (r : Row) (k : String)
    (hk : k ∈ categories) (hmiss : getCol r.cols k = none) :
    isMissingCatError (categoryValues r) = true := by
  obtain ⟨k2, hk2⟩ := getVals_missing r.cols categories k hk hmiss
  simp [categoryValues, hk2, isMissingCatError]

/-- Witness for C7: a row lacking the Near_Normal column. -/
theorem categoryValues_missing_key_witness :
    isMissingCatError (categoryValues incompleteRow) = true :=
  categoryValues_missing_key incompleteRow "Near_Normal" (by decide) (by decide)

/-- C8: for every input, the image resolver on any failure (raised fetch such
as a network error or timeout, non-200 response, decode failure) returns the
fixed placeholder image — the PNG encoding of the flat lightgray 600x600
image — instead of propagating the failure; as a total function it never
raises. -/
theorem get_map_image_failure_placeholder (ops : ImgOps) (fetch : FetchOutcome)
    (h : fetch = .failure ∨
      ∃ s b, fetch = .response s b ∧ (s ≠ 200 ∨ ops.decode b = none)) :
    get_map_image ops fetch =
      "data:image/png;base64," ++
        ops.encodePng (ops.newImg "RGB" (600, 600) "lightgray") false := by
  rcases h with rfl | ⟨s, b, rfl, hs | hd⟩
  · rfl
  · simp [get_map_image, hs]
  · rcases eq_or_ne s 200 with rfl | hs
    · simp [get_map_image, hd]
    · simp [get_map_image, hs]

/-- Witness for C8: a raised fetch degrades to the placeholder. -/
theorem get_map_image_failure_placeholder_witness :
    get_map_image sampleOps .failure =
      "data:image/png;base64," ++
        sampleOps.encodePng (sampleOps.newImg "RGB" (600, 600) "lightgray") false :=
  get_map_image_failure_placeholder sampleOps .failure (Or.inl rfl)

/-- C9: for every record whose six category values sum to a total strictly
greater than 0, the percentages value / total * 100 sum to exactly 100 over
exact arithmetic. -/
theorem percentageOf_sum_eq_100 (vs : List ℚ) (h : 0 < vs.sum) :
    (percentageOf vs).sum = 100 := by
  simp only [percentageOf, if_pos h]
  rw [sum_map_div_mul, div_self (ne_of_gt h), one_mul]

/-- Witness for C9 at the spec's 1984 scenario (total 50). -/
theorem percentageOf_sum_eq_100_witness :
    (percentageOf [10, 5, 5, 20, 8, 2]).sum = 100 :=
  percentageOf_sum_eq_100 [10, 5, 5, 20, 8, 2] (by norm_num [List.sum_cons])

/-- C10: the two dashboard variants implement the same comparison computation:
for every pair of selected years over any dataset, the comparison tables of
drought_dashboard.py and enhanced_drought_dashboard.py produce identical rows
(same categories in the same order, same left and right values, same signed
deltas and the same color classifications). -/
theorem comparison_table_variants_agree (leftYear rightYear : Int) (rows : List Row) :
    create_comparison_table_dd leftYear rightYear rows =
      create_comparison_table_edd leftYear rightYear rows := by
  unfold create_comparison_table_dd create_comparison_table_edd
  cases lookupYear rows leftYear with
  | error e => rfl
  | ok ld =>
    cases lookupYear rows rightYear with
    | error e => rfl
    | ok rd =>
      show compRowsDD ld.cols rd.cols categories =
        compRowsEDD ld.cols rd.cols categoriesE
      rw [show categoriesE = categories from rfl]
      exact compRows_variants_eq ld.cols rd.cols categories

end Drought
